import Mathlib

/-!
Tegra IVC/RPC wire protocol (tegra-ivc-rpc-common.h)

A verification development over `include/soc/tegra/tegra-ivc-rpc-common.h`:
the protocol constants, the packed header and frame structures, and the
frame codec those structures imply.

* Unsigned 32-bit quantities are `Nat` (bounded by `2 ^ 32` where it matters),
  the signed return codes are `Int`.
* A C type declaration is a value of `CType`; `sizeOf` and `offsetOf` compute
  the layout the `__packed` attribute gives it (members laid out back to back,
  a union as large as its largest member).
-/

namespace TegraIvcRpc

/-! ## Signatures and common message identifiers -/

/-- Source: `#define TEGRA_IVC_RPC_REQ_SIGN 0x5152564EU` -/
def TEGRA_IVC_RPC_REQ_SIGN : Nat := 0x5152564E

/-- Source: `#define TEGRA_IVC_RPC_RSP_SIGN 0x5252564EU` -/
def TEGRA_IVC_RPC_RSP_SIGN : Nat := 0x5252564E

/-- Source: `#define TEGRA_IVC_RPC_RSP_RET_CODE 0x7fffffffU`:
response message without additional payload. -/
def TEGRA_IVC_RPC_RSP_RET_CODE : Nat := 0x7fffffff

/-- Source: `#define TEGRA_IVC_RPC_REQ_TEST_NODATA_ACK 0x7ffffe00U` -/
def TEGRA_IVC_RPC_REQ_TEST_NODATA_ACK : Nat := 0x7ffffe00

/-- Source: `#define TEGRA_IVC_RPC_REQ_TEST_NODATA_NACK 0x7ffffe01U` -/
def TEGRA_IVC_RPC_REQ_TEST_NODATA_NACK : Nat := 0x7ffffe01

/-- Source: `#define TEGRA_IVC_RPC_REQ_TEST_DATA_ACK 0x7ffffe02U` -/
def TEGRA_IVC_RPC_REQ_TEST_DATA_ACK : Nat := 0x7ffffe02

/-- Source: `#define TEGRA_IVC_RPC_REQ_TEST_DATA_NACK 0x7ffffe03U` -/
def TEGRA_IVC_RPC_REQ_TEST_DATA_NACK : Nat := 0x7ffffe03

/-- Source: `#define TEGRA_IVC_RPC_RSP_TEST_DATA_ACK 0x7ffffe02U` -/
def TEGRA_IVC_RPC_RSP_TEST_DATA_ACK : Nat := 0x7ffffe02

/-! ## Return codes -/

/-- Source: `#define TEGRA_IVC_RPC_ERR_RANGE_INIT_BEGIN (-1024)` -/
def TEGRA_IVC_RPC_ERR_RANGE_INIT_BEGIN : Int := -1024

/-- Source: `#define TEGRA_IVC_RPC_ERR_RANGE_INIT_END (-2047)` -/
def TEGRA_IVC_RPC_ERR_RANGE_INIT_END : Int := -2047

/-- Source: `#define TEGRA_IVC_RPC_ERR_RANGE_RSP_BEGIN (-2048)` -/
def TEGRA_IVC_RPC_ERR_RANGE_RSP_BEGIN : Int := -2048

/-- Source: `#define TEGRA_IVC_RPC_ERR_RANGE_RSP_END (-3071)` -/
def TEGRA_IVC_RPC_ERR_RANGE_RSP_END : Int := -3071

/-- Source: `#define TEGRA_IVC_RPC_ERR_RANGE_USER_BEGIN (-4096)` -/
def TEGRA_IVC_RPC_ERR_RANGE_USER_BEGIN : Int := -4096

/-- Unknown request - RPC: `(TEGRA_IVC_RPC_ERR_RANGE_RSP_BEGIN - 0)`. -/
def TEGRA_IVC_RPC_ERR_RSP_UNKNOWN_REQ : Int := TEGRA_IVC_RPC_ERR_RANGE_RSP_BEGIN - 0

/-- Unknown request - Non RPC: `(TEGRA_IVC_RPC_ERR_RANGE_RSP_BEGIN - 1)`. -/
def TEGRA_IVC_RPC_ERR_RSP_UNKNOWN_REQ_NON_RPC : Int := TEGRA_IVC_RPC_ERR_RANGE_RSP_BEGIN - 1

/-- Invalid parameter: `(TEGRA_IVC_RPC_ERR_RANGE_RSP_BEGIN - 2)`. -/
def TEGRA_IVC_RPC_ERR_RSP_PARAM : Int := TEGRA_IVC_RPC_ERR_RANGE_RSP_BEGIN - 2

/-- Out of memory: `(TEGRA_IVC_RPC_ERR_RANGE_RSP_BEGIN - 3)`. -/
def TEGRA_IVC_RPC_ERR_RSP_MEMORY : Int := TEGRA_IVC_RPC_ERR_RANGE_RSP_BEGIN - 3

/-- No device: `(TEGRA_IVC_RPC_ERR_RANGE_RSP_BEGIN - 4)`. -/
def TEGRA_IVC_RPC_ERR_RSP_NODEV : Int := TEGRA_IVC_RPC_ERR_RANGE_RSP_BEGIN - 4

/-- I/O error: `(TEGRA_IVC_RPC_ERR_RANGE_RSP_BEGIN - 5)`. -/
def TEGRA_IVC_RPC_ERR_RSP_IO : Int := TEGRA_IVC_RPC_ERR_RANGE_RSP_BEGIN - 5

/-! ## Message structure -/

/-- Source: `#define TEGRA_IVC_RPC_MSG_HEADER_MAX 32U` -/
def TEGRA_IVC_RPC_MSG_HEADER_MAX : Nat := 32

/-- Source: `#define TEGRA_IVC_RPC_MSG_PAYLOAD_MAX 0x400U` -/
def TEGRA_IVC_RPC_MSG_PAYLOAD_MAX : Nat := 0x400

mutual
/-- The C types the header uses: the three fixed-width scalars of `<stdint.h>`,
arrays, `__packed` structures and (anonymous) unions. -/
inductive CType where
  | uint8_t : CType
  | uint32_t : CType
  | int32_t : CType
  | array : CType → Nat → CType
  | packedStruct : Members → CType
  | union : Members → CType
/-- The member list of a structure or union, in declaration order. -/
inductive Members where
  | nil : Members
  | cons : String → CType → Members → Members
end

mutual
/-- The value of `sizeof` for a type: scalars have their fixed width, an array
is its element count times the element size, a packed structure is the sum of
its members (no padding), a union is its largest member. -/
def CType.sizeOf : CType → Nat
  | .uint8_t => 1
  | .uint32_t => 4
  | .int32_t => 4
  | .array t n => n * t.sizeOf
  | .packedStruct ms => ms.sumSize
  | .union ms => ms.maxSize
/-- Sum of the member sizes. -/
def Members.sumSize : Members → Nat
  | .nil => 0
  | .cons _ t rest => t.sizeOf + rest.sumSize
/-- Largest member size. -/
def Members.maxSize : Members → Nat
  | .nil => 0
  | .cons _ t rest => max t.sizeOf rest.maxSize
end

/-- The value of `offsetof` for a member of a packed structure: the sizes of
the members declared before it; `none` when there is no such member. -/
def Members.offsetOf : Members → String → Option Nat
  | .nil, _ => none
  | .cons n t rest, name =>
    if n = name then some 0 else (rest.offsetOf name).map (t.sizeOf + ·)

/-- The declared type of a member; `none` when there is no such member. -/
def Members.typeOf : Members → String → Option CType
  | .nil, _ => none
  | .cons n t rest, name => if n = name then some t else rest.typeOf name

/-- The member names in declaration order. -/
def Members.names : Members → List String
  | .nil => []
  | .cons n _ rest => n :: rest.names

/-- The member types in declaration order. -/
def Members.types : Members → List CType
  | .nil => []
  | .cons _ t rest => t :: rest.types

/-- The byte offsets of all members of a packed structure, in declaration
order, starting from `base`. -/
def Members.offsets : Members → Nat → List Nat
  | .nil, _ => []
  | .cons _ t rest, base => base :: rest.offsets (base + t.sizeOf)

/-- The members of a structure or union type (none for scalars and arrays). -/
def CType.members : CType → Members
  | .packedStruct ms => ms
  | .union ms => ms
  | _ => .nil

/-- Source: `struct tegra_ivc_rpc_request_header { ... } __packed;` -/
def tegra_ivc_rpc_request_header : CType :=
  .packedStruct <|
    .cons "rpc_req_sign" .uint32_t <|
    .cons "seq_num" .uint32_t <|
    .cons "flags" .uint32_t <|
    .cons "reserved" .uint32_t <|
    .cons "request_id" .uint32_t <|
    .cons "request_len" .uint32_t .nil

/-- The anonymous payload union shared by both frame structures:
`union { uint8_t payload8[MAX]; uint32_t payload32[MAX / 4]; }`. -/
def payloadUnion : CType :=
  .union <|
    .cons "payload8" (.array .uint8_t TEGRA_IVC_RPC_MSG_PAYLOAD_MAX) <|
    .cons "payload32" (.array .uint32_t (TEGRA_IVC_RPC_MSG_PAYLOAD_MAX / 4)) .nil

/-- Source: `struct tegra_ivc_rpc_request_frame { hdr; union { ... }; } __packed;`
The anonymous union is given the member name `payload`. -/
def tegra_ivc_rpc_request_frame : CType :=
  .packedStruct <|
    .cons "hdr" tegra_ivc_rpc_request_header <|
    .cons "payload" payloadUnion .nil

/-- Source: `struct tegra_ivc_rpc_response_header { ... } __packed;` -/
def tegra_ivc_rpc_response_header : CType :=
  .packedStruct <|
    .cons "rpc_rsp_sign" .uint32_t <|
    .cons "seq_num" .uint32_t <|
    .cons "ret_code" .int32_t <|
    .cons "ret_data" .uint32_t <|
    .cons "tstamp_req_received" .uint32_t <|
    .cons "tstamp_rsp_sent" .uint32_t <|
    .cons "response_id" .uint32_t <|
    .cons "response_len" .uint32_t .nil

/-- Source: `struct tegra_ivc_rpc_response_frame { hdr; union { ... }; } __packed;`
The anonymous union is given the member name `payload`. -/
def tegra_ivc_rpc_response_frame : CType :=
  .packedStruct <|
    .cons "hdr" tegra_ivc_rpc_response_header <|
    .cons "payload" payloadUnion .nil

/-! ## Return-code bands and debug-message shapes -/

/-- A value representable in a signed 32-bit `ret_code` (`int32_t`). -/
def isInt32 (c : Int) : Prop := -2 ^ 31 ≤ c ∧ c < 2 ^ 31

/-- The initialisation band: the codes from `TEGRA_IVC_RPC_ERR_RANGE_INIT_BEGIN`
down to `TEGRA_IVC_RPC_ERR_RANGE_INIT_END`. -/
def inInitBand (c : Int) : Prop :=
  TEGRA_IVC_RPC_ERR_RANGE_INIT_END ≤ c ∧ c ≤ TEGRA_IVC_RPC_ERR_RANGE_INIT_BEGIN

/-- The responder band: the codes from `TEGRA_IVC_RPC_ERR_RANGE_RSP_BEGIN`
down to `TEGRA_IVC_RPC_ERR_RANGE_RSP_END`. -/
def inRspBand (c : Int) : Prop :=
  TEGRA_IVC_RPC_ERR_RANGE_RSP_END ≤ c ∧ c ≤ TEGRA_IVC_RPC_ERR_RANGE_RSP_BEGIN

/-- The user band: the codes from `TEGRA_IVC_RPC_ERR_RANGE_USER_BEGIN` downwards. -/
def inUserBand (c : Int) : Prop :=
  c ≤ TEGRA_IVC_RPC_ERR_RANGE_USER_BEGIN

instance (c : Int) : Decidable (isInt32 c) := by unfold isInt32; infer_instance
instance (c : Int) : Decidable (inInitBand c) := by unfold inInitBand; infer_instance
instance (c : Int) : Decidable (inRspBand c) := by unfold inRspBand; infer_instance
instance (c : Int) : Decidable (inUserBand c) := by unfold inUserBand; infer_instance

/-- The error codes generated by the target, in declaration order. -/
def rspErrorCodes : List Int :=
  [TEGRA_IVC_RPC_ERR_RSP_UNKNOWN_REQ, TEGRA_IVC_RPC_ERR_RSP_UNKNOWN_REQ_NON_RPC,
   TEGRA_IVC_RPC_ERR_RSP_PARAM, TEGRA_IVC_RPC_ERR_RSP_MEMORY,
   TEGRA_IVC_RPC_ERR_RSP_NODEV, TEGRA_IVC_RPC_ERR_RSP_IO]

/-- The RPC debug request for a call shape, after the naming comment in the
header: `data` selects `DATA` over `NODATA`, `nack` selects `NACK` (the target
is expected not to respond) over `ACK`. -/
def reqTestId (data nack : Bool) : Nat :=
  match data, nack with
  | false, false => TEGRA_IVC_RPC_REQ_TEST_NODATA_ACK
  | false, true => TEGRA_IVC_RPC_REQ_TEST_NODATA_NACK
  | true, false => TEGRA_IVC_RPC_REQ_TEST_DATA_ACK
  | true, true => TEGRA_IVC_RPC_REQ_TEST_DATA_NACK

/-- The response message a debug request expects, after the same comment:
`NODATA` expects `RSP_RET_CODE`, `DATA` expects `RSP_TEST_DATA_ACK`. -/
def expectedTestRsp (data : Bool) : Nat :=
  match data with
  | false => TEGRA_IVC_RPC_RSP_RET_CODE
  | true => TEGRA_IVC_RPC_RSP_TEST_DATA_ACK

/-- Every identifier the header defines besides `TEGRA_IVC_RPC_RSP_RET_CODE`:
the four debug requests and the debug response. -/
def otherIdentifiers : List Nat :=
  [TEGRA_IVC_RPC_REQ_TEST_NODATA_ACK, TEGRA_IVC_RPC_REQ_TEST_NODATA_NACK,
   TEGRA_IVC_RPC_REQ_TEST_DATA_ACK, TEGRA_IVC_RPC_REQ_TEST_DATA_NACK,
   TEGRA_IVC_RPC_RSP_TEST_DATA_ACK]

/-! ## Frame codec

The header declares the wire structures only; the routines that fill and read
them are not part of it. The codec below is the one the specification
describes, reading and writing every field at the offset the structure
declarations give it. -/

/-- Modelled from the spec: one byte of a frame buffer (the codec routines are
not part of the header). -/
abbrev Byte := Fin 256

/-- Modelled from the spec: the low byte of a number, for the fixed-width
byte encoding of 4.1. -/
def byteOf (n : Nat) : Byte := ⟨n % 256, Nat.mod_lt n (by decide)⟩

/-- Modelled from the spec: the byte order of the header fields (4.1), which
must be the same in both communicating domains; the header stores the fields
in native order and names none. -/
inductive ByteOrder where
  | little : ByteOrder
  | big : ByteOrder
  deriving DecidableEq, Repr

/-- Modelled from the spec: the four bytes of an unsigned 32-bit header field
in memory (fixed-width integers, 4.1). -/
def putU32 (bo : ByteOrder) (v : Nat) : List Byte :=
  match bo with
  | .little => [byteOf v, byteOf (v / 0x100), byteOf (v / 0x10000), byteOf (v / 0x1000000)]
  | .big => [byteOf (v / 0x1000000), byteOf (v / 0x10000), byteOf (v / 0x100), byteOf v]

/-- Modelled from the spec: the unsigned 32-bit value of four bytes in memory
(fixed-width integers, 4.1). -/
def getU32 (bo : ByteOrder) (bs : List Byte) : Option Nat :=
  match bo, bs with
  | .little, [b0, b1, b2, b3] =>
    some (b0.val + 0x100 * b1.val + 0x10000 * b2.val + 0x1000000 * b3.val)
  | .big, [b3, b2, b1, b0] =>
    some (b0.val + 0x100 * b1.val + 0x10000 * b2.val + 0x1000000 * b3.val)
  | _, _ => none

/-- Modelled from the spec: read an unsigned 32-bit field at a byte offset of a
buffer (4.1); `none` when the buffer ends before the field does. -/
def readU32 (bo : ByteOrder) (buf : List Byte) (off : Nat) : Option Nat :=
  getU32 bo ((buf.drop off).take 4)

/-- Modelled from the spec: the signed reading of a 32-bit field (two's
complement), for the signed return code of the response header. -/
def toInt32 (v : Nat) : Int :=
  if v < 2 ^ 31 then (v : Int) else (v : Int) - 2 ^ 32

/-- The byte offset of a named member of a structure (0 for an unknown name). -/
def fieldOffset (t : CType) (name : String) : Nat :=
  (t.members.offsetOf name).getD 0

/-- Modelled from the spec: the `ErrorKind` values of the Frame Codec (4.1);
the codec routines are not part of the header. -/
inductive ErrorKind where
  | PayloadTooLarge : ErrorKind
  | TruncatedFrame : ErrorKind
  deriving DecidableEq, Repr

deriving instance DecidableEq for Except

/-- Modelled from the spec: the Request Frame of the data model (section 3):
signature, sequence number, flags, request identifier, payload length and
payload. -/
structure Request where
  signature : Nat
  seqNum : Nat
  flags : Nat
  requestId : Nat
  payloadLen : Nat
  payload : List Byte
  deriving DecidableEq, Repr

/-- Modelled from the spec: the Response Frame of the data model (section 3). -/
structure Response where
  signature : Nat
  seqNum : Nat
  retCode : Int
  retData : Nat
  tstampReqReceived : Nat
  tstampRspSent : Nat
  responseId : Nat
  payloadLen : Nat
  payload : List Byte
  deriving DecidableEq, Repr

/-- Modelled from the spec: the tagged variant a decoded frame is (4.1):
Request, Response or Malformed. -/
inductive Frame where
  | request : Request → Frame
  | response : Response → Frame
  | malformed : Frame
  deriving DecidableEq, Repr

/-- Modelled from the spec: the three classes of a frame (4.1). -/
inductive FrameKind where
  | request : FrameKind
  | response : FrameKind
  | malformed : FrameKind
  deriving DecidableEq, Repr

/-- Modelled from the spec: the signature-based branch of decoding (4.1), the
decoder not being part of the header: the recognized request signature gives a
Request Frame, the recognized response signature a Response Frame, anything
else is Malformed. -/
def classify (w : Nat) : FrameKind :=
  if w = TEGRA_IVC_RPC_REQ_SIGN then .request
  else if w = TEGRA_IVC_RPC_RSP_SIGN then .response
  else .malformed

/-- Modelled from the spec: classification of a buffer by its first 4 bytes
(4.1); a buffer too short to hold a signature carries no recognized one. -/
def frameKind (bo : ByteOrder) (buf : List Byte) : FrameKind :=
  match readU32 bo buf 0 with
  | some w => classify w
  | none => .malformed

/-- Modelled from the spec: `encodeRequest` of the Frame Codec (4.1), the
encoder not being part of the header. The frame is the packed request header
(signature, sequence number, flags, reserved word zero, request identifier,
payload length) followed by the payload; encoding fails with `PayloadTooLarge`
when the payload exceeds the maximum payload capacity. -/
def encodeRequest (bo : ByteOrder) (seq requestId flags : Nat) (payload : List Byte) :
    Except ErrorKind (List Byte) :=
  if payload.length > TEGRA_IVC_RPC_MSG_PAYLOAD_MAX then
    .error .PayloadTooLarge
  else
    .ok (putU32 bo TEGRA_IVC_RPC_REQ_SIGN ++ putU32 bo seq ++ putU32 bo flags ++
         putU32 bo 0 ++ putU32 bo requestId ++ putU32 bo payload.length ++ payload)

/-- Modelled from the spec: decoding of a frame whose signature is the request
signature (4.1). Every field is read at its offset in
`tegra_ivc_rpc_request_header`, the payload right after the header; a header
or payload that would read past the buffer end gives `TruncatedFrame`. -/
def decodeRequest (bo : ByteOrder) (buf : List Byte) : Except ErrorKind Frame :=
  let hdr := tegra_ivc_rpc_request_header
  match readU32 bo buf (fieldOffset hdr "rpc_req_sign"),
        readU32 bo buf (fieldOffset hdr "seq_num"),
        readU32 bo buf (fieldOffset hdr "flags"),
        readU32 bo buf (fieldOffset hdr "request_id"),
        readU32 bo buf (fieldOffset hdr "request_len") with
  | some sig, some seq, some flags, some rid, some len =>
    if hdr.sizeOf + len > buf.length then .error .TruncatedFrame
    else .ok (.request
      { signature := sig, seqNum := seq, flags := flags, requestId := rid,
        payloadLen := len, payload := (buf.drop hdr.sizeOf).take len })
  | _, _, _, _, _ => .error .TruncatedFrame

/-- Modelled from the spec: decoding of a frame whose signature is the response
signature (4.1), every field read at its offset in
`tegra_ivc_rpc_response_header`. -/
def decodeResponse (bo : ByteOrder) (buf : List Byte) : Except ErrorKind Frame :=
  let hdr := tegra_ivc_rpc_response_header
  match readU32 bo buf (fieldOffset hdr "rpc_rsp_sign"),
        readU32 bo buf (fieldOffset hdr "seq_num"),
        readU32 bo buf (fieldOffset hdr "ret_code"),
        readU32 bo buf (fieldOffset hdr "ret_data"),
        readU32 bo buf (fieldOffset hdr "tstamp_req_received"),
        readU32 bo buf (fieldOffset hdr "tstamp_rsp_sent"),
        readU32 bo buf (fieldOffset hdr "response_id"),
        readU32 bo buf (fieldOffset hdr "response_len") with
  | some sig, some seq, some rc, some rd, some t0, some t1, some rid, some len =>
    if hdr.sizeOf + len > buf.length then .error .TruncatedFrame
    else .ok (.response
      { signature := sig, seqNum := seq, retCode := toInt32 rc, retData := rd,
        tstampReqReceived := t0, tstampRspSent := t1, responseId := rid,
        payloadLen := len, payload := (buf.drop hdr.sizeOf).take len })
  | _, _, _, _, _, _, _, _ => .error .TruncatedFrame

/-- Modelled from the spec: `decode` of the Frame Codec (4.1), the decoder not
being part of the header: inspect the first 4 bytes as the signature and
decode as a Request Frame, as a Response Frame, or report Malformed. -/
def decode (bo : ByteOrder) (buf : List Byte) : Except ErrorKind Frame :=
  match frameKind bo buf with
  | .request => decodeRequest bo buf
  | .response => decodeResponse bo buf
  | .malformed => .ok .malformed

/-! ## Codec lemmas -/

theorem putU32_length (bo : ByteOrder) (v : Nat) : (putU32 bo v).length = 4 := by
  cases bo <;> rfl

theorem getU32_putU32 (bo : ByteOrder) (v : Nat) (h : v < 2 ^ 32) :
    getU32 bo (putU32 bo v) = some v := by
  cases bo <;> simp only [putU32, getU32, byteOf, Option.some.injEq] <;> omega

theorem readU32_here (bo : ByteOrder) (v : Nat) (rest : List Byte) (h : v < 2 ^ 32) :
    readU32 bo (putU32 bo v ++ rest) 0 = some v := by
  have hl := putU32_length bo v
  simp only [readU32, List.drop_zero]
  rw [List.take_append_of_le_length (by omega), List.take_of_length_le (by omega)]
  exact getU32_putU32 bo v h

theorem readU32_skip (bo : ByteOrder) (v off : Nat) (rest : List Byte) (h : 4 ≤ off) :
    readU32 bo (putU32 bo v ++ rest) off = readU32 bo rest (off - 4) := by
  have hl := putU32_length bo v
  simp only [readU32]
  rw [List.drop_append_eq_append_drop, List.drop_of_length_le (by omega), hl, List.nil_append]

theorem request_header_offsets :
    fieldOffset tegra_ivc_rpc_request_header "rpc_req_sign" = 0 ∧
    fieldOffset tegra_ivc_rpc_request_header "seq_num" = 4 ∧
    fieldOffset tegra_ivc_rpc_request_header "flags" = 8 ∧
    fieldOffset tegra_ivc_rpc_request_header "request_id" = 16 ∧
    fieldOffset tegra_ivc_rpc_request_header "request_len" = 20 ∧
    tegra_ivc_rpc_request_header.sizeOf = 24 := by
  decide

/-- Decoding the request header followed by a payload, whatever follows the
payload in the buffer. -/
theorem decode_request_bytes (bo : ByteOrder) (seq flags rsv requestId : Nat)
    (payload tail : List Byte)
    (hseq : seq < 2 ^ 32) (hflags : flags < 2 ^ 32)
    (hid : requestId < 2 ^ 32) (hlen : payload.length < 2 ^ 32) :
    decode bo (putU32 bo TEGRA_IVC_RPC_REQ_SIGN ++ putU32 bo seq ++ putU32 bo flags ++
        putU32 bo rsv ++ putU32 bo requestId ++ putU32 bo payload.length ++ payload ++ tail) =
      .ok (.request
        { signature := TEGRA_IVC_RPC_REQ_SIGN, seqNum := seq, flags := flags,
          requestId := requestId, payloadLen := payload.length, payload := payload }) := by
  obtain ⟨o0, o1, o2, o3, o4, hsz⟩ := request_header_offsets
  have hsig : TEGRA_IVC_RPC_REQ_SIGN < 2 ^ 32 := by decide
  have hkind : frameKind bo (putU32 bo TEGRA_IVC_RPC_REQ_SIGN ++ putU32 bo seq ++
      putU32 bo flags ++ putU32 bo rsv ++ putU32 bo requestId ++ putU32 bo payload.length ++
      payload ++ tail) = .request := by
    simp only [frameKind, List.append_assoc, readU32_here bo _ _ hsig, classify, if_true]
  simp only [decode, hkind, decodeRequest, o0, o1, o2, o3, o4, hsz]
  simp only [List.append_assoc]
  rw [readU32_here bo _ _ hsig]
  rw [readU32_skip bo _ 4 _ (by decide), readU32_here bo _ _ hseq]
  rw [readU32_skip bo _ 8 _ (by decide), readU32_skip bo _ _ _ (by decide),
    readU32_here bo _ _ hflags]
  rw [readU32_skip bo _ 16 _ (by decide), readU32_skip bo _ _ _ (by decide),
    readU32_skip bo _ _ _ (by decide), readU32_skip bo _ _ _ (by decide),
    readU32_here bo _ _ hid]
  rw [readU32_skip bo _ 20 _ (by decide), readU32_skip bo _ _ _ (by decide),
    readU32_skip bo _ _ _ (by decide), readU32_skip bo _ _ _ (by decide),
    readU32_skip bo _ _ _ (by decide), readU32_here bo _ _ hlen]
  have hdrop : ∀ (a : List Byte) (k : Nat) (r : List Byte), a.length = 4 → 4 ≤ k →
      (a ++ r).drop k = r.drop (k - 4) := by
    intro a k r ha hk
    rw [List.drop_append_eq_append_drop, List.drop_of_length_le (by omega), ha, List.nil_append]
  simp only [List.length_append, putU32_length]
  rw [if_neg (by omega)]
  rw [hdrop _ 24 _ (putU32_length _ _) (by decide), hdrop _ _ _ (putU32_length _ _) (by decide),
    hdrop _ _ _ (putU32_length _ _) (by decide), hdrop _ _ _ (putU32_length _ _) (by decide),
    hdrop _ _ _ (putU32_length _ _) (by decide), hdrop _ _ _ (putU32_length _ _) (by decide)]
  simp

/-! ## Structure layout -/

/-- C1: the packed structure `tegra_ivc_rpc_request_header` is exactly 24 bytes
and consists of six unsigned 32-bit members with no padding between or after
them, in the order `rpc_req_sign`, `seq_num`, `flags`, `reserved`,
`request_id`, `request_len`, at the byte offsets 0, 4, 8, 12, 16 and 20. -/
theorem request_header_layout :
    tegra_ivc_rpc_request_header.sizeOf = 24 ∧
    tegra_ivc_rpc_request_header.members.names =
      ["rpc_req_sign", "seq_num", "flags", "reserved", "request_id", "request_len"] ∧
    tegra_ivc_rpc_request_header.members.types = List.replicate 6 CType.uint32_t ∧
    tegra_ivc_rpc_request_header.members.offsets 0 = [0, 4, 8, 12, 16, 20] ∧
    tegra_ivc_rpc_request_header.members.offsetOf "rpc_req_sign" = some 0 ∧
    tegra_ivc_rpc_request_header.members.offsetOf "seq_num" = some 4 ∧
    tegra_ivc_rpc_request_header.members.offsetOf "flags" = some 8 ∧
    tegra_ivc_rpc_request_header.members.offsetOf "reserved" = some 12 ∧
    tegra_ivc_rpc_request_header.members.offsetOf "request_id" = some 16 ∧
    tegra_ivc_rpc_request_header.members.offsetOf "request_len" = some 20 ∧
    (tegra_ivc_rpc_request_header.members.types.map CType.sizeOf).sum =
      tegra_ivc_rpc_request_header.sizeOf ∧
    CType.uint32_t.sizeOf = 4 := by
  repeat' apply And.intro
  all_goals first | decide | rfl

/-- C2: the packed structure `tegra_ivc_rpc_response_header` is exactly 32
bytes and consists of eight 32-bit members with no padding, in the order
`rpc_rsp_sign`, `seq_num`, `ret_code`, `ret_data`, `tstamp_req_received`,
`tstamp_rsp_sent`, `response_id`, `response_len`, at the byte offsets 0, 4, 8,
12, 16, 20, 24 and 28; `ret_code` is signed, every other member unsigned. -/
theorem response_header_layout :
    tegra_ivc_rpc_response_header.sizeOf = 32 ∧
    tegra_ivc_rpc_response_header.members.names =
      ["rpc_rsp_sign", "seq_num", "ret_code", "ret_data", "tstamp_req_received",
       "tstamp_rsp_sent", "response_id", "response_len"] ∧
    tegra_ivc_rpc_response_header.members.types =
      [CType.uint32_t, CType.uint32_t, CType.int32_t, CType.uint32_t, CType.uint32_t,
       CType.uint32_t, CType.uint32_t, CType.uint32_t] ∧
    tegra_ivc_rpc_response_header.members.offsets 0 = [0, 4, 8, 12, 16, 20, 24, 28] ∧
    tegra_ivc_rpc_response_header.members.offsetOf "rpc_rsp_sign" = some 0 ∧
    tegra_ivc_rpc_response_header.members.offsetOf "seq_num" = some 4 ∧
    tegra_ivc_rpc_response_header.members.offsetOf "ret_code" = some 8 ∧
    tegra_ivc_rpc_response_header.members.offsetOf "ret_data" = some 12 ∧
    tegra_ivc_rpc_response_header.members.offsetOf "tstamp_req_received" = some 16 ∧
    tegra_ivc_rpc_response_header.members.offsetOf "tstamp_rsp_sent" = some 20 ∧
    tegra_ivc_rpc_response_header.members.offsetOf "response_id" = some 24 ∧
    tegra_ivc_rpc_response_header.members.offsetOf "response_len" = some 28 ∧
    tegra_ivc_rpc_response_header.members.typeOf "ret_code" = some CType.int32_t ∧
    (tegra_ivc_rpc_response_header.members.types.map CType.sizeOf).sum =
      tegra_ivc_rpc_response_header.sizeOf ∧
    CType.uint32_t.sizeOf = 4 ∧ CType.int32_t.sizeOf = 4 := by
  repeat' apply And.intro
  all_goals first | decide | rfl

/-- C3: in both frame structures the payload starts right after the header and
has capacity `TEGRA_IVC_RPC_MSG_PAYLOAD_MAX` = 0x400 = 1024 bytes, and each
header fits in `TEGRA_IVC_RPC_MSG_HEADER_MAX` = 32 bytes: the request frame has
its payload at offset 24 and is 24 + 1024 = 1048 bytes, the response frame has
its payload at offset 32 and is 32 + 1024 = 1056 bytes. Hence for every payload
length `len` of at most 1024, header size plus `len` does not exceed the size
of the frame structure. -/
theorem frame_layout (len : Nat) (hlen : len ≤ TEGRA_IVC_RPC_MSG_PAYLOAD_MAX) :
    TEGRA_IVC_RPC_MSG_PAYLOAD_MAX = 1024 ∧ TEGRA_IVC_RPC_MSG_HEADER_MAX = 32 ∧
    payloadUnion.sizeOf = TEGRA_IVC_RPC_MSG_PAYLOAD_MAX ∧
    (payloadUnion.members.typeOf "payload8").map CType.sizeOf =
      some TEGRA_IVC_RPC_MSG_PAYLOAD_MAX ∧
    (payloadUnion.members.typeOf "payload32").map CType.sizeOf =
      some TEGRA_IVC_RPC_MSG_PAYLOAD_MAX ∧
    tegra_ivc_rpc_request_header.sizeOf ≤ TEGRA_IVC_RPC_MSG_HEADER_MAX ∧
    tegra_ivc_rpc_response_header.sizeOf ≤ TEGRA_IVC_RPC_MSG_HEADER_MAX ∧
    tegra_ivc_rpc_request_frame.members.offsetOf "hdr" = some 0 ∧
    tegra_ivc_rpc_request_frame.members.offsetOf "payload" =
      some tegra_ivc_rpc_request_header.sizeOf ∧
    tegra_ivc_rpc_request_frame.members.offsetOf "payload" = some 24 ∧
    tegra_ivc_rpc_request_frame.sizeOf = 24 + 1024 ∧
    tegra_ivc_rpc_request_frame.sizeOf = 1048 ∧
    tegra_ivc_rpc_response_frame.members.offsetOf "hdr" = some 0 ∧
    tegra_ivc_rpc_response_frame.members.offsetOf "payload" =
      some tegra_ivc_rpc_response_header.sizeOf ∧
    tegra_ivc_rpc_response_frame.members.offsetOf "payload" = some 32 ∧
    tegra_ivc_rpc_response_frame.sizeOf = 32 + 1024 ∧
    tegra_ivc_rpc_response_frame.sizeOf = 1056 ∧
    tegra_ivc_rpc_request_header.sizeOf + len ≤ tegra_ivc_rpc_request_frame.sizeOf ∧
    tegra_ivc_rpc_response_header.sizeOf + len ≤ tegra_ivc_rpc_response_frame.sizeOf := by
  have h1 : tegra_ivc_rpc_request_header.sizeOf = 24 := by decide
  have h2 : tegra_ivc_rpc_response_header.sizeOf = 32 := by decide
  have h3 : tegra_ivc_rpc_request_frame.sizeOf = 1048 := by decide
  have h4 : tegra_ivc_rpc_response_frame.sizeOf = 1056 := by decide
  have h5 : TEGRA_IVC_RPC_MSG_PAYLOAD_MAX = 1024 := by decide
  repeat' apply And.intro
  all_goals first | decide | omega

/-- Witness of C3 at the largest payload length, 1024. -/
theorem frame_layout_witness :
    (1024 ≤ TEGRA_IVC_RPC_MSG_PAYLOAD_MAX) ∧
    tegra_ivc_rpc_request_header.sizeOf + 1024 ≤ tegra_ivc_rpc_request_frame.sizeOf ∧
    tegra_ivc_rpc_response_header.sizeOf + 1024 ≤ tegra_ivc_rpc_response_frame.sizeOf :=
  ⟨by decide,
   (frame_layout 1024 (by decide)).2.2.2.2.2.2.2.2.2.2.2.2.2.2.2.2.2.1,
   (frame_layout 1024 (by decide)).2.2.2.2.2.2.2.2.2.2.2.2.2.2.2.2.2.2⟩

/-! ## Signatures and the frame codec -/

/-- C4: classifying a frame by its first 4 bytes is unambiguous. The request
signature 0x5152564E and the response signature 0x5252564E are different
32-bit values, and in both header layouts the signature member occupies bytes
0-3 and the sequence number bytes 4-7. So a word `w` matches at most one of the
two signatures, it is classified as a request exactly when it is the request
signature, as a response exactly when it is the response signature and as
malformed exactly when it is neither; and a buffer is classified by the word at
the offset of the signature member in the same way. -/
theorem signature_classification (bo : ByteOrder) (w : Nat) (buf : List Byte) :
    TEGRA_IVC_RPC_REQ_SIGN = 0x5152564E ∧ TEGRA_IVC_RPC_RSP_SIGN = 0x5252564E ∧
    TEGRA_IVC_RPC_REQ_SIGN ≠ TEGRA_IVC_RPC_RSP_SIGN ∧
    TEGRA_IVC_RPC_REQ_SIGN < 2 ^ 32 ∧ TEGRA_IVC_RPC_RSP_SIGN < 2 ^ 32 ∧
    tegra_ivc_rpc_request_header.members.offsetOf "rpc_req_sign" = some 0 ∧
    tegra_ivc_rpc_response_header.members.offsetOf "rpc_rsp_sign" = some 0 ∧
    tegra_ivc_rpc_request_header.members.offsetOf "seq_num" = some 4 ∧
    tegra_ivc_rpc_response_header.members.offsetOf "seq_num" = some 4 ∧
    ¬ (w = TEGRA_IVC_RPC_REQ_SIGN ∧ w = TEGRA_IVC_RPC_RSP_SIGN) ∧
    (classify w = FrameKind.request ↔ w = TEGRA_IVC_RPC_REQ_SIGN) ∧
    (classify w = FrameKind.response ↔ w = TEGRA_IVC_RPC_RSP_SIGN) ∧
    (classify w = FrameKind.malformed ↔
      w ≠ TEGRA_IVC_RPC_REQ_SIGN ∧ w ≠ TEGRA_IVC_RPC_RSP_SIGN) ∧
    (frameKind bo buf = FrameKind.request ↔
      readU32 bo buf (fieldOffset tegra_ivc_rpc_request_header "rpc_req_sign") =
        some TEGRA_IVC_RPC_REQ_SIGN) ∧
    (frameKind bo buf = FrameKind.response ↔
      readU32 bo buf (fieldOffset tegra_ivc_rpc_response_header "rpc_rsp_sign") =
        some TEGRA_IVC_RPC_RSP_SIGN) ∧
    (frameKind bo buf = FrameKind.malformed ↔
      readU32 bo buf 0 ≠ some TEGRA_IVC_RPC_REQ_SIGN ∧
      readU32 bo buf 0 ≠ some TEGRA_IVC_RPC_RSP_SIGN) := by
  have hne : TEGRA_IVC_RPC_REQ_SIGN ≠ TEGRA_IVC_RPC_RSP_SIGN := by decide
  have hq : ∀ v : Nat, (classify v = FrameKind.request ↔ v = TEGRA_IVC_RPC_REQ_SIGN) := by
    intro v
    unfold classify
    by_cases h1 : v = TEGRA_IVC_RPC_REQ_SIGN
    · simp [h1]
    · by_cases h2 : v = TEGRA_IVC_RPC_RSP_SIGN <;> simp [h1, h2, Ne.symm hne]
  have hr : ∀ v : Nat, (classify v = FrameKind.response ↔ v = TEGRA_IVC_RPC_RSP_SIGN) := by
    intro v
    unfold classify
    by_cases h1 : v = TEGRA_IVC_RPC_REQ_SIGN
    · simp [h1, hne]
    · by_cases h2 : v = TEGRA_IVC_RPC_RSP_SIGN <;> simp [h1, h2, Ne.symm hne]
  have hm : ∀ v : Nat, (classify v = FrameKind.malformed ↔
      v ≠ TEGRA_IVC_RPC_REQ_SIGN ∧ v ≠ TEGRA_IVC_RPC_RSP_SIGN) := by
    intro v
    unfold classify
    by_cases h1 : v = TEGRA_IVC_RPC_REQ_SIGN
    · simp [h1]
    · by_cases h2 : v = TEGRA_IVC_RPC_RSP_SIGN <;> simp [h1, h2, Ne.symm hne]
  have o1 : fieldOffset tegra_ivc_rpc_request_header "rpc_req_sign" = 0 := by decide
  have o2 : fieldOffset tegra_ivc_rpc_response_header "rpc_rsp_sign" = 0 := by decide
  have hlay :
      tegra_ivc_rpc_request_header.members.offsetOf "rpc_req_sign" = some 0 ∧
      tegra_ivc_rpc_response_header.members.offsetOf "rpc_rsp_sign" = some 0 ∧
      tegra_ivc_rpc_request_header.members.offsetOf "seq_num" = some 4 ∧
      tegra_ivc_rpc_response_header.members.offsetOf "seq_num" = some 4 := by decide
  obtain ⟨l1, l2, l3, l4⟩ := hlay
  have b1 : TEGRA_IVC_RPC_REQ_SIGN < 2 ^ 32 := by decide
  have b2 : TEGRA_IVC_RPC_RSP_SIGN < 2 ^ 32 := by decide
  refine ⟨rfl, rfl, hne, b1, b2, l1, l2, l3, l4, ?_, hq w, hr w, hm w, ?_, ?_, ?_⟩
  · rintro ⟨h1, h2⟩
    exact hne (h1.symm.trans h2)
  · rw [o1]
    unfold frameKind
    cases hrd : readU32 bo buf 0 with
    | none => simp
    | some v => simpa using hq v
  · rw [o2]
    unfold frameKind
    cases hrd : readU32 bo buf 0 with
    | none => simp
    | some v => simpa using hr v
  · unfold frameKind
    cases hrd : readU32 bo buf 0 with
    | none => simp
    | some v => simpa using hm v

/-- C5: round trip over the request wire layout. For every sequence number,
flags value and request identifier (each 32-bit) and every payload of at most
1024 bytes, encoding the request succeeds and gives the 24-byte packed header
followed by the payload bytes, and decoding those bytes gives a Request with
the request signature and the same sequence number, flags, request identifier
and payload. -/
theorem encodeRequest_decode_roundtrip (bo : ByteOrder) (seq flags requestId : Nat)
    (payload : List Byte)
    (hseq : seq < 2 ^ 32) (hflags : flags < 2 ^ 32) (hid : requestId < 2 ^ 32)
    (hlen : payload.length ≤ 1024) :
    ∃ bytes : List Byte,
      encodeRequest bo seq requestId flags payload = .ok bytes ∧
      bytes.length = tegra_ivc_rpc_request_header.sizeOf + payload.length ∧
      bytes.drop tegra_ivc_rpc_request_header.sizeOf = payload ∧
      decode bo bytes = .ok (.request
        { signature := 0x5152564E, seqNum := seq, flags := flags,
          requestId := requestId, payloadLen := payload.length, payload := payload }) := by
  have hmax : TEGRA_IVC_RPC_MSG_PAYLOAD_MAX = 1024 := by decide
  have hsz : tegra_ivc_rpc_request_header.sizeOf = 24 := by decide
  refine ⟨putU32 bo TEGRA_IVC_RPC_REQ_SIGN ++ putU32 bo seq ++ putU32 bo flags ++
    putU32 bo 0 ++ putU32 bo requestId ++ putU32 bo payload.length ++ payload, ?_, ?_, ?_, ?_⟩
  · unfold encodeRequest
    rw [if_neg (by omega)]
  · simp only [List.length_append, putU32_length, hsz]
  · rw [hsz]
    have h24 : ∀ (a : List Byte), a.length = 24 → (a ++ payload).drop 24 = payload := by
      intro a ha
      rw [List.drop_append_eq_append_drop, List.drop_of_length_le (by omega), ha]
      simp
    exact h24 _ (by simp only [List.length_append, putU32_length])
  · have h := decode_request_bytes bo seq flags 0 requestId payload [] hseq hflags hid
      (by omega)
    rw [List.append_nil] at h
    exact h

/-- Witness of C5: sequence number 7, no flags, the debug request
`TEGRA_IVC_RPC_REQ_TEST_DATA_ACK` and a three-byte payload, little-endian. -/
theorem encodeRequest_decode_roundtrip_witness :
    (7 < 2 ^ 32 ∧ 0 < 2 ^ 32 ∧ 0x7ffffe02 < 2 ^ 32 ∧
      ([1, 2, 3] : List Byte).length ≤ 1024) ∧
    ∃ bytes : List Byte,
      encodeRequest ByteOrder.little 7 0x7ffffe02 0 [1, 2, 3] = .ok bytes ∧
      bytes.length = tegra_ivc_rpc_request_header.sizeOf + ([1, 2, 3] : List Byte).length ∧
      bytes.drop tegra_ivc_rpc_request_header.sizeOf = [1, 2, 3] ∧
      decode ByteOrder.little bytes = .ok (.request
        { signature := 0x5152564E, seqNum := 7, flags := 0,
          requestId := 0x7ffffe02, payloadLen := ([1, 2, 3] : List Byte).length,
          payload := [1, 2, 3] }) :=
  ⟨by decide,
   encodeRequest_decode_roundtrip ByteOrder.little 7 0 0x7ffffe02 [1, 2, 3]
     (by norm_num) (by norm_num) (by norm_num) (by simp)⟩

/-! ## Return codes -/

/-- C6: every error code generated by the target (`UNKNOWN_REQ`,
`UNKNOWN_REQ_NON_RPC`, `PARAM`, `MEMORY`, `NODEV`, `IO`) is negative, fits a
signed 32-bit `ret_code` and lies in the responder band, between
`TEGRA_IVC_RPC_ERR_RANGE_RSP_END` = -3071 and
`TEGRA_IVC_RPC_ERR_RANGE_RSP_BEGIN` = -2048; the six codes are pairwise
distinct, and the unknown-request code is -2048. -/
theorem rsp_error_codes_in_band :
    TEGRA_IVC_RPC_ERR_RANGE_RSP_END = -3071 ∧ TEGRA_IVC_RPC_ERR_RANGE_RSP_BEGIN = -2048 ∧
    (TEGRA_IVC_RPC_ERR_RSP_UNKNOWN_REQ < 0 ∧ isInt32 TEGRA_IVC_RPC_ERR_RSP_UNKNOWN_REQ ∧
      inRspBand TEGRA_IVC_RPC_ERR_RSP_UNKNOWN_REQ) ∧
    (TEGRA_IVC_RPC_ERR_RSP_UNKNOWN_REQ_NON_RPC < 0 ∧
      isInt32 TEGRA_IVC_RPC_ERR_RSP_UNKNOWN_REQ_NON_RPC ∧
      inRspBand TEGRA_IVC_RPC_ERR_RSP_UNKNOWN_REQ_NON_RPC) ∧
    (TEGRA_IVC_RPC_ERR_RSP_PARAM < 0 ∧ isInt32 TEGRA_IVC_RPC_ERR_RSP_PARAM ∧
      inRspBand TEGRA_IVC_RPC_ERR_RSP_PARAM) ∧
    (TEGRA_IVC_RPC_ERR_RSP_MEMORY < 0 ∧ isInt32 TEGRA_IVC_RPC_ERR_RSP_MEMORY ∧
      inRspBand TEGRA_IVC_RPC_ERR_RSP_MEMORY) ∧
    (TEGRA_IVC_RPC_ERR_RSP_NODEV < 0 ∧ isInt32 TEGRA_IVC_RPC_ERR_RSP_NODEV ∧
      inRspBand TEGRA_IVC_RPC_ERR_RSP_NODEV) ∧
    ( TEGRA_IVC_RPC_ERR_RSP_IO < 0 ∧ isInt32 TEGRA_IVC_RPC_ERR_RSP_IO ∧
      inRspBand TEGRA_IVC_RPC_ERR_RSP_IO) ∧
    rspErrorCodes = [-2048, -2049, -2050, -2051, -2052, -2053] ∧
    rspErrorCodes.Nodup ∧
    TEGRA_IVC_RPC_ERR_RSP_UNKNOWN_REQ = -2048 := by
  decide

/-- C7: the three return-code bands are pairwise disjoint: no code lies in two
of the initialisation band [-2047, -1024], the responder band [-3071, -2048]
and the user band (-4096 and below). -/
theorem bands_pairwise_disjoint (c : Int) :
    (inInitBand c ↔ -2047 ≤ c ∧ c ≤ -1024) ∧
    (inRspBand c ↔ -3071 ≤ c ∧ c ≤ -2048) ∧
    (inUserBand c ↔ c ≤ -4096) ∧
    ¬ (inInitBand c ∧ inRspBand c) ∧
    ¬ (inInitBand c ∧ inUserBand c) ∧
    ¬ (inRspBand c ∧ inUserBand c) := by
  unfold inInitBand inRspBand inUserBand TEGRA_IVC_RPC_ERR_RANGE_INIT_BEGIN
    TEGRA_IVC_RPC_ERR_RANGE_INIT_END TEGRA_IVC_RPC_ERR_RANGE_RSP_BEGIN
    TEGRA_IVC_RPC_ERR_RANGE_RSP_END TEGRA_IVC_RPC_ERR_RANGE_USER_BEGIN
  refine ⟨Iff.rfl, Iff.rfl, Iff.rfl, ?_, ?_, ?_⟩
  · rintro ⟨⟨h1, h2⟩, h3, h4⟩
    omega
  · rintro ⟨⟨h1, h2⟩, h3⟩
    omega
  · rintro ⟨⟨h1, h2⟩, h3⟩
    omega

/-- C8, as stated, fails: -2047 is a code of the initialisation band and lies
below -1024, so -1024 is not the lowest code of the band. -/
theorem init_band_reaches_below_1024 :
    inInitBand (-2047) ∧ ¬ ((-2047 : Int) ≥ -1024) ∧
    ¬ (∀ c : Int, inInitBand c → c ≥ -1024) := by
  refine ⟨by decide, by decide, ?_⟩
  intro h
  exact absurd (h (-2047) (by decide)) (by decide)

/-- C8, amended: the initialisation band begins at
`TEGRA_IVC_RPC_ERR_RANGE_INIT_BEGIN` = -1024, its highest (least negative) code,
and extends down to `TEGRA_IVC_RPC_ERR_RANGE_INIT_END` = -2047, its lowest:
every initialisation-phase code `c` satisfies -2047 ≤ c ≤ -1024, and both ends
belong to the band. -/
theorem init_band_bounds (c : Int) (h : inInitBand c) :
    TEGRA_IVC_RPC_ERR_RANGE_INIT_BEGIN = -1024 ∧ TEGRA_IVC_RPC_ERR_RANGE_INIT_END = -2047 ∧
    -2047 ≤ c ∧ c ≤ -1024 ∧
    inInitBand (-1024) ∧ inInitBand (-2047) := by
  refine ⟨rfl, rfl, ?_, ?_, by decide, by decide⟩
  · simpa [TEGRA_IVC_RPC_ERR_RANGE_INIT_END] using h.1
  · simpa [TEGRA_IVC_RPC_ERR_RANGE_INIT_BEGIN] using h.2

/-- Witness of the amended C8 at the code -1500. -/
theorem init_band_bounds_witness :
    inInitBand (-1500) ∧ (-2047 : Int) ≤ -1500 ∧ (-1500 : Int) ≤ -1024 :=
  ⟨by decide, (init_band_bounds (-1500) (by decide)).2.2.1,
    (init_band_bounds (-1500) (by decide)).2.2.2.1⟩

/-! ## Debug messages -/

/-- C9: the four debug request identifiers are the consecutive values
0x7ffffe00 to 0x7ffffe03, pairwise distinct, in the order no-data/ack,
no-data/nack, data/ack, data/nack: the identifier of a call shape is
0x7ffffe00 + 2 * data + nack. -/
theorem test_request_ids (data nack : Bool) :
    reqTestId data nack = 0x7ffffe00 + 2 * data.toNat + nack.toNat ∧
    TEGRA_IVC_RPC_REQ_TEST_NODATA_ACK = 0x7ffffe00 ∧
    TEGRA_IVC_RPC_REQ_TEST_NODATA_NACK = 0x7ffffe01 ∧
    TEGRA_IVC_RPC_REQ_TEST_DATA_ACK = 0x7ffffe02 ∧
    TEGRA_IVC_RPC_REQ_TEST_DATA_NACK = 0x7ffffe03 ∧
    [reqTestId false false, reqTestId false true, reqTestId true false, reqTestId true true] =
      List.range' 0x7ffffe00 4 ∧
    [TEGRA_IVC_RPC_REQ_TEST_NODATA_ACK, TEGRA_IVC_RPC_REQ_TEST_NODATA_NACK,
      TEGRA_IVC_RPC_REQ_TEST_DATA_ACK, TEGRA_IVC_RPC_REQ_TEST_DATA_NACK].Nodup := by
  refine ⟨?_, rfl, rfl, rfl, rfl, by decide, by decide⟩
  cases data <;> cases nack <;> rfl

/-- C10: the no-payload response identifier `TEGRA_IVC_RPC_RSP_RET_CODE` is
0x7fffffff, the largest positive signed 32-bit value, and differs from every
other identifier the header defines: from the four debug request identifiers
and from the debug response `TEGRA_IVC_RPC_RSP_TEST_DATA_ACK`, which equals the
request identifier `TEGRA_IVC_RPC_REQ_TEST_DATA_ACK` = 0x7ffffe02. -/
theorem rsp_ret_code_sentinel :
    TEGRA_IVC_RPC_RSP_RET_CODE = 0x7fffffff ∧
    TEGRA_IVC_RPC_RSP_RET_CODE = 2 ^ 31 - 1 ∧
    isInt32 (TEGRA_IVC_RPC_RSP_RET_CODE : Int) ∧ ¬ isInt32 ((TEGRA_IVC_RPC_RSP_RET_CODE : Int) + 1) ∧
    TEGRA_IVC_RPC_RSP_RET_CODE ≠ TEGRA_IVC_RPC_REQ_TEST_NODATA_ACK ∧
    TEGRA_IVC_RPC_RSP_RET_CODE ≠ TEGRA_IVC_RPC_REQ_TEST_NODATA_NACK ∧
    TEGRA_IVC_RPC_RSP_RET_CODE ≠ TEGRA_IVC_RPC_REQ_TEST_DATA_ACK ∧
    TEGRA_IVC_RPC_RSP_RET_CODE ≠ TEGRA_IVC_RPC_REQ_TEST_DATA_NACK ∧
    TEGRA_IVC_RPC_RSP_RET_CODE ≠ TEGRA_IVC_RPC_RSP_TEST_DATA_ACK ∧
    TEGRA_IVC_RPC_RSP_RET_CODE ∉ otherIdentifiers ∧
    TEGRA_IVC_RPC_RSP_TEST_DATA_ACK = TEGRA_IVC_RPC_REQ_TEST_DATA_ACK ∧
    TEGRA_IVC_RPC_RSP_TEST_DATA_ACK = 0x7ffffe02 ∧
    expectedTestRsp false ≠ expectedTestRsp true := by
  decide

end TegraIvcRpc
